import Mathlib

/-!
Shallow embedding of the client in src/frontend/src/App.js: the HomePage /
GalleryPage view-state machine, its event handlers, and the text items each
view renders. Network calls are modelled by passing the outcome of the one
request a handler issues as an `Except` argument; each handler returns its
final state together with the requests it issued, the toast notifications it
showed, and the console log lines it wrote.
-/

/-- Data held for a linked Spotify account (spec section 3; consumed at
App.js lines 41-44). The two text fields are optional to model the
JavaScript fallback `sd.artists_text || ""` for missing fields. -/
structure SpotifyData where
  artists : List String
  genres : List String
  artists_text : Option String
  genres_text : Option String
deriving DecidableEq

/-- Generated DJ persona (spec section 3; rendered at App.js lines 284-322). -/
structure Persona where
  dj_name : String
  bio : String
  palette : List String
  style_tags : List String
  logo_shape : String
deriving DecidableEq

/-- Result of one generation call (spec section 3; App.js line 85). -/
structure GenerationResult where
  session_id : String
  persona : Persona
  prompts : List String
  uploaded_photos : List String
  image_urls : List String
deriving DecidableEq

/-- A non-blocking toast notification (the sonner calls in App.js). -/
inductive Toast where
  | success (msg : String)
  | error (msg : String)
  | info (msg : String)
deriving DecidableEq

/-- Whether a toast is an error notification. -/
def Toast.isError : Toast → Bool
  | .error _ => true
  | _ => false

/-- The HomePage component state: the seven useState hooks of
App.js lines 16-22, in declaration order. -/
structure HomeState where
  spotifyData : Option SpotifyData
  loading : Bool
  sessionId : Option String
  artistsText : String
  genresText : String
  generating : Bool
  result : Option GenerationResult
deriving DecidableEq

/-- Initial HomePage state: the useState initial values of App.js lines 16-22. -/
def initHomeState : HomeState :=
  { spotifyData := none, loading := false, sessionId := none,
    artistsText := "", genresText := "", generating := false, result := none }

/-- The GalleryPage component state: the two useState hooks of
App.js lines 239-240. -/
structure GalleryState where
  regenerating : Bool
  prompts : List String
deriving DecidableEq

/-- Initial GalleryPage state for a given result (App.js lines 239-240:
`regenerating = false`, `prompts = result.prompts`). -/
def initGalleryState (r : GenerationResult) : GalleryState :=
  { regenerating := false, prompts := r.prompts }

/-- Body of the `GET /api/session/id/spotify` response (App.js line 41):
`spotify_data` may be null or absent, modelled as `none`. -/
structure SessionSpotifyResponse where
  spotify_data : Option SpotifyData
deriving DecidableEq

/-- Body of the `GET /api/login/spotify` response (App.js line 56). -/
structure LoginResponse where
  auth_url : String
deriving DecidableEq

/-- Body of the `POST /api/regenerate-prompts/id` response (App.js line 246). -/
structure RegenerateResponse where
  prompts : List String
deriving DecidableEq

/-- Model of JavaScript `String.prototype.trim` as used at App.js lines 67
and 217: drops leading and trailing whitespace characters. -/
def trimWs (s : String) : String :=
  String.mk
    (((s.data.dropWhile Char.isWhitespace).reverse.dropWhile
        Char.isWhitespace).reverse)

/-- The multipart form posted to `POST /api/generate` (App.js lines 74-77). -/
structure GenerateRequest where
  session_id : String
  artists_text : String
  genres_text : String
deriving DecidableEq

/-- Output of `fetchSpotifyData` (App.js lines 38-50): the final component
state, the toasts shown, and the console log lines written. -/
structure FetchOut where
  state : HomeState
  toasts : List Toast
  logs : List String
deriving DecidableEq

/-- Embedding of `fetchSpotifyData` (App.js lines 38-50). On a successful
response it stores `spotify_data` and pre-fills both text fields (with the
`|| ""` fallback) only when `spotify_data` is truthy; a caught failure is
logged only, with no toast and no state change. -/
def fetchSpotifyData (outcome : Except String SessionSpotifyResponse)
    (s : HomeState) : FetchOut :=
  match outcome with
  | .ok resp =>
      match resp.spotify_data with
      | some sd =>
          { state := { s with spotifyData := some sd,
                              artistsText := sd.artists_text.getD "",
                              genresText := sd.genres_text.getD "" },
            toasts := [Toast.success "Spotify data loaded successfully!"],
            logs := [] }
      | none => { state := s, toasts := [], logs := [] }
  | .error e =>
      { state := s, toasts := [],
        logs := ["Error fetching Spotify data: " ++ e] }

/-- Output of `handleSpotifyConnect` (App.js lines 52-62): final state, the
URL the browser is navigated to on success, toasts, logs. -/
structure ConnectOut where
  state : HomeState
  navigateTo : Option String
  toasts : List Toast
  logs : List String
deriving DecidableEq

/-- Embedding of `handleSpotifyConnect` (App.js lines 52-62): sets the
loading flag, requests the auth URL, and on success navigates to it (the
flag stays set, the page unloads); a caught failure is logged, shows an
error toast, and clears the loading flag. -/
def handleSpotifyConnect (outcome : Except String LoginResponse)
    (s : HomeState) : ConnectOut :=
  match outcome with
  | .ok resp =>
      { state := { s with loading := true }, navigateTo := some resp.auth_url,
        toasts := [], logs := [] }
  | .error e =>
      { state := { s with loading := false }, navigateTo := none,
        toasts := [Toast.error "Failed to connect to Spotify"],
        logs := ["Error connecting to Spotify: " ++ e] }

/-- Output of `handleGenerate` (App.js lines 66-93): final state, the
generate requests issued, toasts, logs. -/
structure GenerateOut where
  state : HomeState
  requests : List GenerateRequest
  toasts : List Toast
  logs : List String
deriving DecidableEq

/-- Embedding of `handleGenerate` (App.js lines 66-93). The guard at line 67
(`!artistsText.trim() && !genresText.trim()`) toasts an error and returns
without issuing a request; otherwise one multipart request is posted with
`sessionId || ""` and both text fields. On success the response becomes the
active result; a caught failure is logged and toasts an error; the `finally`
block clears the generating flag on both paths. -/
def handleGenerate (outcome : Except String GenerationResult)
    (s : HomeState) : GenerateOut :=
  if trimWs s.artistsText = "" ∧ trimWs s.genresText = "" then
    { state := s, requests := [],
      toasts :=
        [Toast.error "Please provide artists or genres, or connect your Spotify account"],
      logs := [] }
  else
    match outcome with
    | .ok r =>
        { state := { s with result := some r, generating := false },
          requests := [⟨s.sessionId.getD "", s.artistsText, s.genresText⟩],
          toasts := [Toast.success "DJ Persona generated successfully!"],
          logs := [] }
    | .error e =>
        { state := { s with generating := false },
          requests := [⟨s.sessionId.getD "", s.artistsText, s.genresText⟩],
          toasts := [Toast.error "Failed to generate DJ persona"],
          logs := ["Error generating persona: " ++ e] }

/-- Embedding of `clearSpotify` (App.js lines 95-101): clears the Spotify
data, the session id and both text fields, and shows an info toast. -/
def clearSpotify (s : HomeState) : HomeState × List Toast :=
  ({ s with spotifyData := none, sessionId := none,
            artistsText := "", genresText := "" },
   [Toast.info "Spotify data cleared"])

/-- The Back action of the GalleryPage (App.js line 104: `setResult(null)`). -/
def handleBack (s : HomeState) : HomeState :=
  { s with result := none }

/-- The browser URL as the client sees it: pathname plus parsed query
parameters in order. -/
structure UrlState where
  pathname : String
  query : List (String × String)
deriving DecidableEq

/-- First value bound to a query-parameter key, as `URLSearchParams.get`
returns it: `none` when the key is absent. -/
def getQueryParam (q : List (String × String)) (k : String) : Option String :=
  (q.find? (fun p => p.1 == k)).map (fun p => p.2)

/-- Output of the mount effect (App.js lines 24-36): final state, final URL,
the session ids for which the session endpoint was called, toasts, logs. -/
structure MountOut where
  state : HomeState
  url : UrlState
  fetchedSessions : List String
  toasts : List Toast
  logs : List String
deriving DecidableEq

/-- Embedding of the mount effect (App.js lines 24-36). JavaScript
truthiness of `spotifyConnected && session`: both parameters must be present
and non-empty (the empty string is falsy). When the condition holds, the
session id is stored, `fetchSpotifyData` is called with it, and
`history.replaceState` drops the whole query string without a reload. -/
def mountEffect (fetchOutcome : Except String SessionSpotifyResponse)
    (url : UrlState) (s : HomeState) : MountOut :=
  match getQueryParam url.query "spotify_connected",
        getQueryParam url.query "session" with
  | some sc, some sess =>
      if sc ≠ "" ∧ sess ≠ "" then
        let f := fetchSpotifyData fetchOutcome { s with sessionId := some sess }
        { state := f.state, url := { pathname := url.pathname, query := [] },
          fetchedSessions := [sess], toasts := f.toasts, logs := f.logs }
      else
        { state := s, url := url, fetchedSessions := [], toasts := [], logs := [] }
  | _, _ =>
      { state := s, url := url, fetchedSessions := [], toasts := [], logs := [] }

/-- Output of `handleRegeneratePrompts` (App.js lines 242-254): final
GalleryPage state, the session ids of the requests issued, toasts, logs. -/
structure RegenOut where
  state : GalleryState
  requests : List String
  toasts : List Toast
  logs : List String
deriving DecidableEq

/-- Embedding of `handleRegeneratePrompts` (App.js lines 242-254): issues
exactly one request keyed by `result.session_id`; on success the displayed
prompts are replaced by the response prompts; a caught failure is logged and
toasts an error, leaving the prompts untouched. The `finally` block clears
the regenerating flag on both paths. -/
def handleRegeneratePrompts (r : GenerationResult)
    (outcome : Except String RegenerateResponse) (g : GalleryState) : RegenOut :=
  match outcome with
  | .ok resp =>
      { state := { regenerating := false, prompts := resp.prompts },
        requests := [r.session_id],
        toasts := [Toast.success "New prompts generated!"], logs := [] }
  | .error e =>
      { state := { regenerating := false, prompts := g.prompts },
        requests := [r.session_id],
        toasts := [Toast.error "Failed to regenerate prompts"],
        logs := ["Error regenerating prompts: " ++ e] }

/-- Which of the two views HomePage renders. -/
inductive RenderedView where
  | generator
  | gallery (r : GenerationResult)
deriving DecidableEq

/-- View selection of HomePage (App.js lines 103-105): the GalleryPage is
rendered exactly when `result` is non-null, the form view otherwise. -/
def selectView (s : HomeState) : RenderedView :=
  match s.result with
  | some r => RenderedView.gallery r
  | none => RenderedView.generator

/-- A rendered text item: the element kind it appears in and its text. -/
structure RItem where
  tag : String
  text : String
deriving DecidableEq

/-- The Connected-to-Spotify badge (App.js lines 139-141). -/
def connectedBadge : RItem :=
  ⟨"Badge", "✓ Connected to Spotify"⟩

/-- Text items of the Spotify card (App.js lines 126-168): the badge, Clear
button and previews when Spotify data is linked, the connect button
otherwise. -/
def renderSpotifyCard (s : HomeState) : List RItem :=
  match s.spotifyData with
  | some sd =>
      [connectedBadge, ⟨"Button", "Clear"⟩,
       ⟨"p", "Artists: " ++ String.intercalate ", " (sd.artists.take 3)⟩,
       ⟨"p", "Genres: " ++ String.intercalate ", " (sd.genres.take 3)⟩]
  | none =>
      [⟨"Button", if s.loading then "Connecting..." else "Connect with Spotify"⟩]

/-- Text items of the Generator View (App.js lines 107-235). -/
def renderGeneratorView (s : HomeState) : List RItem :=
  [⟨"h1", "AI DJ Persona"⟩] ++ renderSpotifyCard s ++
  [⟨"Input", s.artistsText⟩, ⟨"Input", s.genresText⟩,
   ⟨"Button", if s.generating then "Generating Your DJ Persona..."
              else "Generate DJ Persona"⟩]

/-- The disabled condition of the Generate button (App.js line 217). -/
def generateButtonDisabled (s : HomeState) : Bool :=
  s.generating || (trimWs s.artistsText == "" && trimWs s.genresText == "")

/-- Text items of the Gallery View (App.js lines 256-420): header, persona
card (name, bio, palette swatches, style-tag badges, logo shape), the
uploaded-photo images when present, then either the generated images or the
prompts card with the regenerate button. -/
def renderGalleryView (r : GenerationResult) (g : GalleryState) : List RItem :=
  [⟨"Button", "← Back to Generator"⟩, ⟨"h1", "Your DJ Persona"⟩,
   ⟨"div", "Session: " ++ r.session_id⟩,
   ⟨"CardTitle", r.persona.dj_name⟩, ⟨"CardDescription", r.persona.bio⟩] ++
  r.persona.palette.map (fun c => ⟨"swatch", c⟩) ++
  r.persona.style_tags.map (fun t => ⟨"Badge", t⟩) ++
  [⟨"Badge", r.persona.logo_shape⟩] ++
  (if r.uploaded_photos.isEmpty then []
   else r.uploaded_photos.map
     (fun p => ⟨"img", "/static/uploads/" ++ r.session_id ++ "/" ++ p⟩)) ++
  (if r.image_urls.isEmpty then
     [⟨"Button", if g.regenerating then "Regenerating..."
                 else "Regenerate Prompts"⟩] ++
     g.prompts.map (fun p => ⟨"p", p⟩)
   else r.image_urls.map
     (fun u => ⟨"img", "/static/generated/" ++ r.session_id ++ "/" ++ u⟩))

/-- Sample persona for concrete witnesses. -/
def samplePersona : Persona :=
  { dj_name := "Neon Drift", bio := "Late-night techno selector.",
    palette := ["#00ffcc", "#112233"], style_tags := ["techno", "melodic"],
    logo_shape := "hexagon" }

/-- Sample generation result for concrete witnesses. -/
def sampleResult : GenerationResult :=
  { session_id := "sess-42", persona := samplePersona,
    prompts := ["prompt one", "prompt two"], uploaded_photos := [],
    image_urls := [] }

/-- Sample Spotify data for concrete witnesses. -/
def sampleSpotify : SpotifyData :=
  { artists := ["Deadmau5"], genres := ["techno"],
    artists_text := some "Deadmau5", genres_text := some "techno" }

/-- Sample filled-in Generator View state for concrete witnesses. -/
def sampleFilledState : HomeState :=
  { initHomeState with artistsText := "Deadmau5" }

/-- Sample state with linked Spotify data for concrete witnesses. -/
def sampleLinkedState : HomeState :=
  { initHomeState with
    spotifyData := some sampleSpotify,
    sessionId := some "sess-42",
    artistsText := "Deadmau5",
    genresText := "techno" }

/-- URL carrying `spotify_connected=true` together with an empty `session`
value, which JavaScript truthiness treats as falsy. -/
def emptySessionUrl : UrlState :=
  { pathname := "/", query := [("spotify_connected", "true"), ("session", "")] }

/-- URL carrying `spotify_connected=false` and a non-empty session value. -/
def falseConnectedUrl : UrlState :=
  { pathname := "/",
    query := [("spotify_connected", "false"), ("session", "sess-42")] }

/-- URL carrying `spotify_connected=true` and a non-empty session value. -/
def trueConnectedUrl : UrlState :=
  { pathname := "/",
    query := [("spotify_connected", "true"), ("session", "sess-42")] }

/-- Claim C1: for every client state at most one of the two views is
rendered, chosen solely by whether a GenerationResult is present: the
GalleryPage is rendered exactly when `result` is non-null, the form view
otherwise; the Back action discards the result and returns to the form. -/
theorem C1_view_selection (s : HomeState) :
    (s.result = none → selectView s = RenderedView.generator) ∧
    (∀ r, s.result = some r → selectView s = RenderedView.gallery r) ∧
    (selectView s = RenderedView.generator → s.result = none) ∧
    (∀ r, selectView s = RenderedView.gallery r → s.result = some r) ∧
    selectView (handleBack s) = RenderedView.generator ∧
    (handleBack s).result = none := by
  cases h : s.result <;> simp [selectView, handleBack, h]

/-- Claim C1 witness: the view selection evaluated at the initial state and
at a state holding a concrete result. -/
theorem C1_view_selection_witness :
    selectView initHomeState = RenderedView.generator ∧
    selectView { initHomeState with result := some sampleResult } =
      RenderedView.gallery sampleResult := by
  refine ⟨(C1_view_selection initHomeState).1 rfl, ?_⟩
  exact (C1_view_selection { initHomeState with result := some sampleResult }).2.1
    sampleResult rfl

/-- Claim C2: when both text fields trim to empty the Generate button is
disabled and an invocation of the handler issues no request, changes no
state and only shows an error toast; when at least one field is
non-whitespace the guard passes and one request is issued. -/
theorem C2_generate_guard (s : HomeState) (o : Except String GenerationResult) :
    (trimWs s.artistsText = "" ∧ trimWs s.genresText = "" →
      generateButtonDisabled s = true ∧
      (handleGenerate o s).state = s ∧
      (handleGenerate o s).requests = [] ∧
      (handleGenerate o s).toasts =
        [Toast.error "Please provide artists or genres, or connect your Spotify account"]) ∧
    (¬ (trimWs s.artistsText = "" ∧ trimWs s.genresText = "") →
      (handleGenerate o s).requests =
        [⟨s.sessionId.getD "", s.artistsText, s.genresText⟩]) := by
  constructor
  · rintro ⟨ha, hg⟩
    simp [handleGenerate, generateButtonDisabled, ha, hg]
  · intro h
    cases o <;> simp [handleGenerate, h]

/-- Claim C2 witness: the guard evaluated at the empty initial state and at
a state with a non-whitespace artists field. -/
theorem C2_generate_guard_witness :
    (generateButtonDisabled initHomeState = true ∧
      (handleGenerate (Except.error "net") initHomeState).state = initHomeState ∧
      (handleGenerate (Except.error "net") initHomeState).requests = [] ∧
      (handleGenerate (Except.error "net") initHomeState).toasts =
        [Toast.error "Please provide artists or genres, or connect your Spotify account"]) ∧
    (handleGenerate (Except.error "net") sampleFilledState).requests =
      [⟨"", "Deadmau5", ""⟩] := by
  refine ⟨(C2_generate_guard initHomeState (Except.error "net")).1 (by decide), ?_⟩
  exact (C2_generate_guard sampleFilledState (Except.error "net")).2 (by decide)

/-- Claim C5: a failed generate request (guard passed, no result yet shown)
leaves the artists text, genres text, session id and Spotify data untouched,
the result stays absent, the busy flag ends cleared, and exactly one error
toast is shown. -/
theorem C5_generate_error_atomic (s : HomeState) (e : String)
    (hguard : ¬ (trimWs s.artistsText = "" ∧ trimWs s.genresText = ""))
    (hres : s.result = none) :
    (handleGenerate (Except.error e) s).state.artistsText = s.artistsText ∧
    (handleGenerate (Except.error e) s).state.genresText = s.genresText ∧
    (handleGenerate (Except.error e) s).state.sessionId = s.sessionId ∧
    (handleGenerate (Except.error e) s).state.spotifyData = s.spotifyData ∧
    (handleGenerate (Except.error e) s).state.result = none ∧
    (handleGenerate (Except.error e) s).state.generating = false ∧
    (handleGenerate (Except.error e) s).toasts =
      [Toast.error "Failed to generate DJ persona"] := by
  simp [handleGenerate, hguard, hres]

/-- Claim C5 witness: the failure path evaluated at a concrete filled-in
state. -/
theorem C5_generate_error_atomic_witness :
    (handleGenerate (Except.error "boom") sampleFilledState).state.artistsText =
      "Deadmau5" ∧
    (handleGenerate (Except.error "boom") sampleFilledState).state.result = none := by
  have h := C5_generate_error_atomic sampleFilledState "boom" (by decide) rfl
  exact ⟨h.1, h.2.2.2.2.1⟩

/-- Claim C7: Clear, from any state, empties both text fields and removes
the Spotify data and the session id, and the Connected badge is absent from
the re-rendered Generator View. -/
theorem C7_clear_resets (s : HomeState) :
    (clearSpotify s).1.artistsText = "" ∧
    (clearSpotify s).1.genresText = "" ∧
    (clearSpotify s).1.spotifyData = none ∧
    (clearSpotify s).1.sessionId = none ∧
    connectedBadge ∉ renderGeneratorView (clearSpotify s).1 := by
  refine ⟨rfl, rfl, rfl, rfl, ?_⟩
  simp [clearSpotify, renderGeneratorView, renderSpotifyCard, connectedBadge]

/-- Claim C7 witness: Clear evaluated on a state with linked Spotify data. -/
theorem C7_clear_resets_witness :
    (clearSpotify sampleLinkedState).1.spotifyData = none ∧
    connectedBadge ∉ renderGeneratorView (clearSpotify sampleLinkedState).1 := by
  exact ⟨(C7_clear_resets sampleLinkedState).2.2.1,
    (C7_clear_resets sampleLinkedState).2.2.2.2⟩

/-- Claim C9: a session-spotify response whose `spotify_data` is missing or
null stores no SpotifyData, leaves the whole state (text fields included)
unchanged, and reports no error toast or log. -/
theorem C9_missing_spotify_data (s : HomeState) :
    (fetchSpotifyData (Except.ok (SessionSpotifyResponse.mk none)) s).state = s ∧
    (fetchSpotifyData (Except.ok (SessionSpotifyResponse.mk none)) s).toasts = [] ∧
    (fetchSpotifyData (Except.ok (SessionSpotifyResponse.mk none)) s).logs = [] := by
  simp [fetchSpotifyData]

/-- Claim C9 witness: the null-data response evaluated at a concrete state. -/
theorem C9_missing_spotify_data_witness :
    (fetchSpotifyData (Except.ok (SessionSpotifyResponse.mk none))
        { initHomeState with artistsText := "keep" }).state =
      { initHomeState with artistsText := "keep" } := by
  exact (C9_missing_spotify_data { initHomeState with artistsText := "keep" }).1

/-- Claim C3 counterexample: a failed session fetch is caught and the state
is unchanged, but contrary to the claim no notification is surfaced to the
user — the toast list is empty while the other three call sites do toast. -/
theorem C3_counterexample :
    (fetchSpotifyData (Except.error "network down") initHomeState).toasts = [] ∧
    (fetchSpotifyData (Except.error "network down") initHomeState).state =
      initHomeState ∧
    (fetchSpotifyData (Except.error "network down") initHomeState).logs ≠ [] := by
  exact ⟨rfl, rfl, by decide⟩

/-- Claim C3 amended: every network-call failure is caught at its call site,
logged, and leaves the view state at its pre-call value; the login, generate
and regenerate failures surface an error notification, while a session-fetch
failure is logged only and surfaces no notification. -/
theorem C3_amended_error_handling (s : HomeState) (g : GalleryState)
    (r : GenerationResult) (e : String)
    (hload : s.loading = false) (hgen : s.generating = false)
    (hguard : ¬ (trimWs s.artistsText = "" ∧ trimWs s.genresText = ""))
    (hre : g.regenerating = false) :
    ((handleSpotifyConnect (Except.error e) s).state = s ∧
      (handleSpotifyConnect (Except.error e) s).navigateTo = none ∧
      (handleSpotifyConnect (Except.error e) s).logs ≠ [] ∧
      (handleSpotifyConnect (Except.error e) s).toasts.any Toast.isError = true) ∧
    ((fetchSpotifyData (Except.error e) s).state = s ∧
      (fetchSpotifyData (Except.error e) s).logs ≠ [] ∧
      (fetchSpotifyData (Except.error e) s).toasts = []) ∧
    ((handleGenerate (Except.error e) s).state = s ∧
      (handleGenerate (Except.error e) s).logs ≠ [] ∧
      (handleGenerate (Except.error e) s).toasts.any Toast.isError = true) ∧
    ((handleRegeneratePrompts r (Except.error e) g).state = g ∧
      (handleRegeneratePrompts r (Except.error e) g).logs ≠ [] ∧
      (handleRegeneratePrompts r (Except.error e) g).toasts.any Toast.isError =
        true) := by
  obtain ⟨sd, ld, sid, a1, g1, gen, res⟩ := s
  obtain ⟨regen, ps⟩ := g
  simp only at hload hgen hre
  subst hload hgen hre
  simp [handleSpotifyConnect, fetchSpotifyData, handleGenerate,
    handleRegeneratePrompts, hguard, Toast.isError]

/-- Claim C3 amended witness: the failure paths evaluated at a concrete
filled-in state: the session fetch surfaces nothing, the generate call
surfaces an error toast. -/
theorem C3_amended_error_handling_witness :
    (fetchSpotifyData (Except.error "net") sampleFilledState).toasts = [] ∧
    (handleGenerate (Except.error "net") sampleFilledState).toasts.any
      Toast.isError = true := by
  have h := C3_amended_error_handling sampleFilledState
    (initGalleryState sampleResult) sampleResult "net" rfl rfl (by decide) rfl
  exact ⟨h.2.1.2.2, h.2.2.1.2.2⟩

/-- Claim C4 counterexample: with `spotify_connected=true` and an empty
`session` value in the URL, the mount effect does not store the session id,
does not call the session endpoint, and leaves the URL untouched, because
the empty string is falsy in the JavaScript conjunction at App.js line 30. -/
theorem C4_counterexample :
    (mountEffect (Except.ok (SessionSpotifyResponse.mk (some sampleSpotify)))
        emptySessionUrl initHomeState).state = initHomeState ∧
    (mountEffect (Except.ok (SessionSpotifyResponse.mk (some sampleSpotify)))
        emptySessionUrl initHomeState).url = emptySessionUrl ∧
    (mountEffect (Except.ok (SessionSpotifyResponse.mk (some sampleSpotify)))
        emptySessionUrl initHomeState).fetchedSessions = [] := by
  decide

/-- Claim C4 amended: whenever the URL carries `spotify_connected=true` and
a NON-EMPTY `session=S`, the client on mount stores S as the session id,
calls the session endpoint with S, pre-fills both text fields from the
returned `spotify_data`, and drops the query parameters from the URL while
keeping the pathname. -/
theorem C4_redirect_amended (url : UrlState) (s : HomeState) (sess : String)
    (sd : SpotifyData)
    (hc : getQueryParam url.query "spotify_connected" = some "true")
    (hs : getQueryParam url.query "session" = some sess)
    (hne : sess ≠ "") :
    (mountEffect (Except.ok (SessionSpotifyResponse.mk (some sd))) url
        s).state.sessionId = some sess ∧
    (mountEffect (Except.ok (SessionSpotifyResponse.mk (some sd))) url
        s).fetchedSessions = [sess] ∧
    (mountEffect (Except.ok (SessionSpotifyResponse.mk (some sd))) url
        s).state.spotifyData = some sd ∧
    (mountEffect (Except.ok (SessionSpotifyResponse.mk (some sd))) url
        s).state.artistsText = sd.artists_text.getD "" ∧
    (mountEffect (Except.ok (SessionSpotifyResponse.mk (some sd))) url
        s).state.genresText = sd.genres_text.getD "" ∧
    (mountEffect (Except.ok (SessionSpotifyResponse.mk (some sd))) url
        s).url.pathname = url.pathname ∧
    (mountEffect (Except.ok (SessionSpotifyResponse.mk (some sd))) url
        s).url.query = [] := by
  simp [mountEffect, hc, hs, hne, fetchSpotifyData]

/-- Claim C4 amended witness: the redirect return evaluated on a concrete
URL with a non-empty session id. -/
theorem C4_redirect_amended_witness :
    (mountEffect (Except.ok (SessionSpotifyResponse.mk (some sampleSpotify)))
        trueConnectedUrl initHomeState).state.sessionId = some "sess-42" ∧
    (mountEffect (Except.ok (SessionSpotifyResponse.mk (some sampleSpotify)))
        trueConnectedUrl initHomeState).url.query = [] := by
  have h := C4_redirect_amended trueConnectedUrl initHomeState "sess-42"
    sampleSpotify rfl rfl (by decide)
  exact ⟨h.1, h.2.2.2.2.2.2⟩

/-- Claim C6: a failed regenerate call leaves the displayed prompts
unchanged and shows exactly one error toast; a successful call replaces the
prompts with the response prompts; either way exactly one request keyed by
the session id is issued. -/
theorem C6_regenerate_prompts (r : GenerationResult) (g : GalleryState)
    (e : String) (resp : RegenerateResponse) :
    (handleRegeneratePrompts r (Except.error e) g).state.prompts = g.prompts ∧
    (handleRegeneratePrompts r (Except.error e) g).toasts =
      [Toast.error "Failed to regenerate prompts"] ∧
    (handleRegeneratePrompts r (Except.error e) g).requests = [r.session_id] ∧
    (handleRegeneratePrompts r (Except.ok resp) g).state.prompts =
      resp.prompts ∧
    (handleRegeneratePrompts r (Except.ok resp) g).requests =
      [r.session_id] := by
  simp [handleRegeneratePrompts]

/-- Claim C6 witness: the regenerate handler evaluated at a concrete result
and gallery state. -/
theorem C6_regenerate_prompts_witness :
    (handleRegeneratePrompts sampleResult (Except.error "net")
        (initGalleryState sampleResult)).state.prompts =
      (initGalleryState sampleResult).prompts ∧
    (handleRegeneratePrompts sampleResult
        (Except.ok (RegenerateResponse.mk ["fresh"]))
        (initGalleryState sampleResult)).state.prompts = ["fresh"] := by
  have h := C6_regenerate_prompts sampleResult (initGalleryState sampleResult)
    "net" (RegenerateResponse.mk ["fresh"])
  exact ⟨h.1, h.2.2.2.1⟩

/-- Claim C8: after a successful generate call the response becomes the
active result, the Gallery View is selected, and it renders the persona
dj_name and every style tag verbatim. -/
theorem C8_gallery_renders_persona (s : HomeState) (r : GenerationResult)
    (hguard : ¬ (trimWs s.artistsText = "" ∧ trimWs s.genresText = "")) :
    (handleGenerate (Except.ok r) s).state.result = some r ∧
    selectView (handleGenerate (Except.ok r) s).state =
      RenderedView.gallery r ∧
    RItem.mk "CardTitle" r.persona.dj_name ∈
      renderGalleryView r (initGalleryState r) ∧
    ∀ t ∈ r.persona.style_tags,
      RItem.mk "Badge" t ∈ renderGalleryView r (initGalleryState r) := by
  refine ⟨by simp [handleGenerate, hguard],
    by simp [handleGenerate, hguard, selectView], by simp [renderGalleryView], ?_⟩
  intro t ht
  simp [renderGalleryView, ht]

/-- Claim C8 witness: the success path evaluated at a concrete filled-in
state and result. -/
theorem C8_gallery_renders_persona_witness :
    (handleGenerate (Except.ok sampleResult) sampleFilledState).state.result =
      some sampleResult ∧
    RItem.mk "Badge" "techno" ∈
      renderGalleryView sampleResult (initGalleryState sampleResult) := by
  have h := C8_gallery_renders_persona sampleFilledState sampleResult (by decide)
  exact ⟨h.1, h.2.2.2 "techno" (by decide)⟩

/-- Claim C10: the redirect-return detection fires for any present,
non-empty values of both query parameters, regardless of the value of
`spotify_connected`: the session id is stored, the session endpoint is
called with it, and the query string is dropped. -/
theorem C10_truthiness_redirect (url : UrlState) (s : HomeState)
    (o : Except String SessionSpotifyResponse) (sc sess : String)
    (hc : getQueryParam url.query "spotify_connected" = some sc)
    (hsc : sc ≠ "")
    (hs : getQueryParam url.query "session" = some sess)
    (hss : sess ≠ "") :
    (mountEffect o url s).state.sessionId = some sess ∧
    (mountEffect o url s).fetchedSessions = [sess] ∧
    (mountEffect o url s).url.query = [] := by
  cases o with
  | error e => simp [mountEffect, hc, hs, hsc, hss, fetchSpotifyData]
  | ok resp =>
      cases h : resp.spotify_data <;>
        simp [mountEffect, hc, hs, hsc, hss, fetchSpotifyData, h]

/-- Claim C10 witness: the mount effect fired by `spotify_connected=false`
with a non-empty session id. -/
theorem C10_truthiness_redirect_witness :
    (mountEffect (Except.error "net") falseConnectedUrl
        initHomeState).state.sessionId = some "sess-42" ∧
    (mountEffect (Except.error "net") falseConnectedUrl
        initHomeState).fetchedSessions = ["sess-42"] ∧
    (mountEffect (Except.error "net") falseConnectedUrl
        initHomeState).url.query = [] := by
  exact C10_truthiness_redirect falseConnectedUrl initHomeState
    (Except.error "net") "false" "sess-42" rfl (by decide) rfl (by decide)
